import Mathlib

set_option linter.unusedVariables false

/-!
Verification of the Clinical Trials Agent (src/LAB4-Clinical-Trials-Agent/agent.py).

The Python module is shallowly embedded: JSON values become the inductive
`Json`; Python dictionary indexing `d[k]` (which raises `KeyError` on a missing
key) and `d.get(k, default)` become `Json.pyGet` / `Json.pyGetD` returning
`Except String _`, where `.error` models a raised Python exception; HTTP
responses become the structure `HttpResponse` (status code plus parsed JSON
body).  Each of the four registry-client functions of agent.py becomes a Lean
function of its arguments and the upstream response.
-/

/-- A JSON value, as produced by `response.json()` in agent.py.  Objects are
association lists in insertion order (Python dicts preserve it); numbers are
integers, which covers every number the agent code manipulates. -/
inductive Json where
  | null : Json
  | bool (b : Bool) : Json
  | num (n : Int) : Json
  | str (s : String) : Json
  | arr (elems : List Json) : Json
  | obj (fields : List (String × Json)) : Json
deriving Repr

mutual

/-- Decidable structural equality for `Json`, the meaning of Python `==` on
parsed JSON values (used by `facility_info not in facilities` in agent.py). -/
def Json.beq : Json → Json → Bool
  | .null, .null => true
  | .bool a, .bool b => a == b
  | .num a, .num b => a == b
  | .str a, .str b => a == b
  | .arr xs, .arr ys => Json.beqList xs ys
  | .obj xs, .obj ys => Json.beqFields xs ys
  | _, _ => false

def Json.beqList : List Json → List Json → Bool
  | [], [] => true
  | x :: xs, y :: ys => Json.beq x y && Json.beqList xs ys
  | _, _ => false

def Json.beqFields : List (String × Json) → List (String × Json) → Bool
  | [], [] => true
  | (k, v) :: xs, (l, w) :: ys => k == l && Json.beq v w && Json.beqFields xs ys
  | _, _ => false

end

instance : BEq Json := ⟨Json.beq⟩

mutual

def Json.beq_iff : ∀ a b : Json, Json.beq a b = true ↔ a = b
  | .null, .null => by simp [Json.beq]
  | .bool a, .bool b => by simp [Json.beq]
  | .num a, .num b => by simp [Json.beq]
  | .str a, .str b => by simp [Json.beq]
  | .arr xs, .arr ys => by
      simp only [Json.beq, Json.beqList_iff xs ys, Json.arr.injEq]
  | .obj xs, .obj ys => by
      simp only [Json.beq, Json.beqFields_iff xs ys, Json.obj.injEq]
  | .null, .bool _ | .null, .num _ | .null, .str _ | .null, .arr _ | .null, .obj _
  | .bool _, .null | .bool _, .num _ | .bool _, .str _ | .bool _, .arr _ | .bool _, .obj _
  | .num _, .null | .num _, .bool _ | .num _, .str _ | .num _, .arr _ | .num _, .obj _
  | .str _, .null | .str _, .bool _ | .str _, .num _ | .str _, .arr _ | .str _, .obj _
  | .arr _, .null | .arr _, .bool _ | .arr _, .num _ | .arr _, .str _ | .arr _, .obj _
  | .obj _, .null | .obj _, .bool _ | .obj _, .num _ | .obj _, .str _ | .obj _, .arr _ => by
      simp [Json.beq]

def Json.beqList_iff : ∀ xs ys : List Json, Json.beqList xs ys = true ↔ xs = ys
  | [], [] => by simp [Json.beqList]
  | x :: xs, y :: ys => by
      simp [Json.beqList, Json.beq_iff x y, Json.beqList_iff xs ys]
  | [], _ :: _ => by simp [Json.beqList]
  | _ :: _, [] => by simp [Json.beqList]

def Json.beqFields_iff :
    ∀ xs ys : List (String × Json), Json.beqFields xs ys = true ↔ xs = ys
  | [], [] => by simp [Json.beqFields]
  | (k, v) :: xs, (l, w) :: ys => by
      simp [Json.beqFields, Json.beq_iff v w, Json.beqFields_iff xs ys]
  | [], _ :: _ => by simp [Json.beqFields]
  | _ :: _, [] => by simp [Json.beqFields]

end

instance : DecidableEq Json := fun a b =>
  decidable_of_iff (Json.beq a b = true) (Json.beq_iff a b)

instance : LawfulBEq Json where
  eq_of_beq h := (Json.beq_iff _ _).mp h
  rfl := by intro a; exact (Json.beq_iff a a).mpr rfl

/-- Python `d[k]` on a parsed-JSON dictionary: `KeyError` if the key is
missing, `TypeError` if the receiver is not a dictionary. -/
def Json.pyGet (j : Json) (k : String) : Except String Json :=
  match j with
  | .obj kvs =>
    match kvs.lookup k with
    | some v => .ok v
    | none => .error ("KeyError: " ++ k)
  | _ => .error "TypeError: not subscriptable"

/-- Python `d.get(k, default)` on a parsed-JSON dictionary: the value when the
key is present, the default otherwise; `AttributeError` if the receiver is not
a dictionary. -/
def Json.pyGetD (j : Json) (k : String) (default : Json) : Except String Json :=
  match j with
  | .obj kvs => .ok ((kvs.lookup k).getD default)
  | _ => .error "AttributeError: no attribute get"

/-- Whether `needle` occurs as a contiguous run inside `hay`. -/
def charsContains (needle : List Char) : List Char → Bool
  | [] => needle.isEmpty
  | c :: t => needle.isPrefixOf (c :: t) || charsContains needle t

/-- Python `k in d` for a string key against a parsed-JSON value: key
membership for dictionaries, element membership for lists, substring test for
strings, `TypeError` otherwise. -/
def Json.pyContains (j : Json) (k : String) : Except String Bool :=
  match j with
  | .obj kvs => .ok (kvs.lookup k).isSome
  | .arr xs => .ok (xs.contains (.str k))
  | .str s => .ok (charsContains k.data s.data)
  | _ => .error "TypeError: argument not iterable"

/-- Whether a parsed-JSON dictionary has a key (specification-side helper for
stating which keys a summary carries). -/
def Json.hasKey (j : Json) (k : String) : Bool :=
  match j with
  | .obj kvs => (kvs.lookup k).isSome
  | _ => false

mutual

/-- Python `repr` of a parsed-JSON value (used for values nested inside a
container rendered by an f-string). -/
def Json.pyRepr : Json → String
  | .null => "None"
  | .bool true => "True"
  | .bool false => "False"
  | .num n => toString n
  | .str s => "\x27" ++ s ++ "\x27"
  | .arr xs => "[" ++ String.intercalate ", " (Json.pyReprList xs) ++ "]"
  | .obj kvs => "\x7b" ++ String.intercalate ", " (Json.pyReprFields kvs) ++ "\x7d"

def Json.pyReprList : List Json → List String
  | [] => []
  | x :: xs => Json.pyRepr x :: Json.pyReprList xs

def Json.pyReprFields : List (String × Json) → List String
  | [] => []
  | (k, v) :: kvs => ("\x27" ++ k ++ "\x27: " ++ Json.pyRepr v) :: Json.pyReprFields kvs

end

/-- Python `str` of a parsed-JSON value, the conversion an f-string performs
(agent.py line 101 interpolates `minimumAge`/`maximumAge` this way). -/
def Json.pyStr : Json → String
  | .str s => s
  | j => Json.pyRepr j

/-- An upstream HTTP response as agent.py consumes it: the status code and the
JSON body that `response.json()` would yield. -/
structure HttpResponse where
  status_code : Nat
  body : Json
deriving Repr

/-- The error dictionary `{"error": f"API error: {response.status_code}"}`
every registry function returns on a non-200 status (agent.py lines 62, 110,
172, 221). -/
def apiError (code : Nat) : Json :=
  .obj [("error", .str ("API error: " ++ toString code))]

/-- Error-propagating map over a list, in left-to-right order: the meaning of
a Python list comprehension / accumulation loop whose body may raise. -/
def mapME (f : α → Except String β) : List α → Except String (List β)
  | [] => .ok []
  | x :: xs => do
    let y ← f x
    let ys ← mapME f xs
    .ok (y :: ys)

/-- Error-propagating left fold, the meaning of a Python for-loop mutating an
accumulator where the body may raise. -/
def foldME (f : σ → α → Except String σ) : σ → List α → Except String σ
  | acc, [] => .ok acc
  | acc, x :: xs => do
    foldME f (← f acc x) xs

/-- The query-parameter dictionary `count_trials` sends (agent.py lines
39-45). -/
def count_trials_params (condition status : String) : List (String × Json) :=
  [("format", .str "json"), ("pageSize", .num 1000), ("query.cond", .str condition),
   ("filter.overallStatus", .str status), ("fields", .str "NCTId,BriefTitle")]

/-- Embedding of `count_trials` (agent.py lines 26-62) applied to the upstream response:
on 200, reads `studies` (default `[]`), returns the count, echoes condition
and status, and maps the first three studies through the raising path
`s["protocolSection"]["identificationModule"]["briefTitle"]`; on any other
status returns the error dictionary. -/
def count_trials (condition status : String) (resp : HttpResponse) :
    Except String Json :=
  if resp.status_code = 200 then do
    let studies ← resp.body.pyGetD "studies" (.arr [])
    match studies with
    | .arr xs => do
      let titles ← mapME (fun s => do
          let ps ← s.pyGet "protocolSection"
          let im ← ps.pyGet "identificationModule"
          im.pyGet "briefTitle") (xs.take 3)
      .ok (.obj [("count", .num xs.length), ("condition", .str condition),
                 ("status", .str status), ("sample_titles", .arr titles)])
    | _ => .error "TypeError: studies is not a list"
  else
    .ok (apiError resp.status_code)

/-- The query-parameter dictionary `get_eligibility_criteria` sends
(agent.py lines 78-84); `max_trials` becomes the upstream `pageSize`. -/
def get_eligibility_criteria_params (condition : String) (max_trials : Int) :
    List (String × Json) :=
  [("format", .str "json"), ("pageSize", .num max_trials),
   ("query.cond", .str condition), ("filter.overallStatus", .str "RECRUITING"),
   ("fields", .str "NCTId,BriefTitle,EligibilityCriteria,Sex,MinimumAge,MaximumAge")]

/-- The per-study record built in the loop of `get_eligibility_criteria`
(agent.py lines 92-102): `protocolSection`, `identificationModule`, `nctId`
and `briefTitle` are raising accesses, the eligibility fields default to
`"N/A"`, and the age range is an f-string over the two age fields. -/
def eligibilityEntry (study : Json) : Except String Json := do
  let protocol ← study.pyGet "protocolSection"
  let eligibility ← protocol.pyGetD "eligibilityModule" (.obj [])
  let im ← protocol.pyGet "identificationModule"
  let nct ← im.pyGet "nctId"
  let title ← im.pyGet "briefTitle"
  let crit ← eligibility.pyGetD "eligibilityCriteria" (.str "N/A")
  let sex ← eligibility.pyGetD "sex" (.str "N/A")
  let minAge ← eligibility.pyGetD "minimumAge" (.str "N/A")
  let maxAge ← eligibility.pyGetD "maximumAge" (.str "N/A")
  .ok (.obj [("nct_id", nct), ("title", title), ("criteria", crit), ("sex", sex),
             ("age_range", .str (minAge.pyStr ++ " - " ++ maxAge.pyStr))])

/-- Embedding of `get_eligibility_criteria` (agent.py lines 65-110) applied to the upstream
response.  The `max_trials` bound only shapes the request parameters; the 200
branch processes every study record the response carries. -/
def get_eligibility_criteria (condition : String) (max_trials : Int)
    (resp : HttpResponse) : Except String Json :=
  if resp.status_code = 200 then do
    let studies ← resp.body.pyGetD "studies" (.arr [])
    match studies with
    | .arr xs => do
      let criteria_list ← mapME eligibilityEntry xs
      .ok (.obj [("condition", .str condition),
                 ("number_of_trials", .num criteria_list.length),
                 ("criteria", .arr criteria_list)])
    | _ => .error "TypeError: studies is not a list"
  else
    .ok (apiError resp.status_code)

/-- Python `str.lower()`, character by character (ASCII case folding, which is
all the agent's country comparison relies on). -/
def pyLower (s : String) : String := ⟨s.data.map Char.toLower⟩

/-- Python truthiness of the optional `country` argument (`if country:` at
agent.py line 131): `None` and the empty string are falsy. -/
def strOptTruthy : Option String → Bool
  | none => false
  | some s => !s.isEmpty

/-- The query-parameter dictionary `get_trial_locations` sends (agent.py lines
124-132): `query.locn` is added only for a truthy country. -/
def get_trial_locations_params (condition : String) (country : Option String) :
    List (String × Json) :=
  [("format", .str "json"), ("pageSize", .num 50), ("query.cond", .str condition),
   ("fields", .str "NCTId,BriefTitle,LocationFacility,LocationCity,LocationCountry")]
  ++ (match country with
      | some c => if c.isEmpty then [] else [("query.locn", .str c)]
      | none => [])

/-- The `continue` test of the location loop (agent.py lines 151-153): with a
truthy country filter, a location is skipped unless its `country` value
(default `""`) equals the filter up to `lower()`; calling `.lower()` on a
non-string value raises. -/
def locSkipped (country : Option String) (loc : Json) : Except String Bool :=
  match country with
  | none => .ok false
  | some c =>
    if c.isEmpty then .ok false
    else do
      match ← loc.pyGetD "country" (.str "") with
      | .str s => .ok (!(pyLower s == pyLower c))
      | _ => .error "AttributeError: lower"

/-- The `facility_info` record (agent.py lines 155-159): facility, city and
country each default to `"N/A"` when missing. -/
def facility_info (loc : Json) : Except String Json := do
  let f ← loc.pyGetD "facility" (.str "N/A")
  let city ← loc.pyGetD "city" (.str "N/A")
  let co ← loc.pyGetD "country" (.str "N/A")
  .ok (.obj [("facility", f), ("city", city), ("country", co)])

/-- The duplicate guard of agent.py lines 161-163: append the record unless
an equal record is already accumulated. -/
def insertNew (facilities : List Json) (fi : Json) : List Json :=
  if facilities.contains fi then facilities else facilities ++ [fi]

/-- One iteration of the inner location loop (agent.py lines 150-163): apply
the country filter, then append the facility record unless an equal record is
already accumulated. -/
def addLocation (country : Option String) (facilities : List Json) (loc : Json) :
    Except String (List Json) := do
  if (← locSkipped country loc) then .ok facilities
  else do
    let fi ← facility_info loc
    .ok (insertNew facilities fi)

/-- One iteration of the outer study loop (agent.py lines 145-163): a raising
access to `protocolSection`, the `contactsLocationsModule` membership guard,
then the inner loop over `locations` (default `[]`). -/
def collectStudy (country : Option String) (facilities : List Json)
    (study : Json) : Except String (List Json) := do
  let protocol ← study.pyGet "protocolSection"
  if (← protocol.pyContains "contactsLocationsModule") then do
    let clm ← protocol.pyGet "contactsLocationsModule"
    let locations ← clm.pyGetD "locations" (.arr [])
    match locations with
    | .arr locs => foldME (addLocation country) facilities locs
    | _ => .error "TypeError: locations is not a list"
  else .ok facilities

/-- Embedding of `get_trial_locations` (agent.py lines 113-172) applied to the upstream
response: accumulate deduplicated facility records over all studies, report
their full count, and return only the first 20 (agent.py lines 165-170). -/
def get_trial_locations (condition : String) (country : Option String)
    (resp : HttpResponse) : Except String Json :=
  if resp.status_code = 200 then do
    let studies ← resp.body.pyGetD "studies" (.arr [])
    match studies with
    | .arr xs => do
      let facilities ← foldME (collectStudy country) [] xs
      .ok (.obj [("condition", .str condition),
                 ("country", .str (if strOptTruthy country then country.getD "" else "all")),
                 ("number_of_facilities", .num facilities.length),
                 ("facilities", .arr (facilities.take 20))])
    | _ => .error "TypeError: studies is not a list"
  else
    .ok (apiError resp.status_code)

/-- The query-parameter dictionary `get_trial_phases` sends (agent.py lines
188-194). -/
def get_trial_phases_params (condition phase : String) : List (String × Json) :=
  [("format", .str "json"), ("pageSize", .num 100), ("query.cond", .str condition),
   ("query.term", .str phase),
   ("fields", .str "NCTId,BriefTitle,Phase,StartDate,CompletionDate")]

/-- The per-study record built in the loop of `get_trial_phases` (agent.py
lines 202-212): `protocolSection`, `identificationModule`, `nctId` and
`briefTitle` are raising accesses; phase defaults to `["N/A"]` and the two
dates to `"N/A"` through chained defaulting reads. -/
def phasesEntry (study : Json) : Except String Json := do
  let protocol ← study.pyGet "protocolSection"
  let status_module ← protocol.pyGetD "statusModule" (.obj [])
  let im ← protocol.pyGet "identificationModule"
  let nct ← im.pyGet "nctId"
  let title ← im.pyGet "briefTitle"
  let dm ← protocol.pyGetD "designModule" (.obj [])
  let phase ← dm.pyGetD "phases" (.arr [.str "N/A"])
  let sds ← status_module.pyGetD "startDateStruct" (.obj [])
  let startDate ← sds.pyGetD "date" (.str "N/A")
  let cds ← status_module.pyGetD "completionDateStruct" (.obj [])
  let completionDate ← cds.pyGetD "date" (.str "N/A")
  .ok (.obj [("nct_id", nct), ("title", title), ("phase", phase),
             ("start_date", startDate), ("completion_date", completionDate)])

/-- Embedding of `get_trial_phases` (agent.py lines 175-221) applied to the upstream
response. -/
def get_trial_phases (condition phase : String) (resp : HttpResponse) :
    Except String Json :=
  if resp.status_code = 200 then do
    let studies ← resp.body.pyGetD "studies" (.arr [])
    match studies with
    | .arr xs => do
      let trials ← mapME phasesEntry xs
      .ok (.obj [("condition", .str condition), ("phase", .str phase),
                 ("count", .num trials.length), ("trials", .arr trials)])
    | _ => .error "TypeError: studies is not a list"
  else
    .ok (apiError resp.status_code)

/-- JSON string escaping as `json.dumps` performs it for the characters the
agent's payloads can contain. -/
def jsonEscape (s : String) : String :=
  ⟨s.data.foldr (fun c acc =>
      if c = '"' ∨ c = '\\' then '\\' :: c :: acc else c :: acc) []⟩

mutual

/-- Python `json.dumps` of a parsed-JSON value (used at agent.py line 383 to
serialize a tool result into a tool message's content). -/
def Json.dumps : Json → String
  | .null => "null"
  | .bool true => "true"
  | .bool false => "false"
  | .num n => toString n
  | .str s => "\"" ++ jsonEscape s ++ "\""
  | .arr xs => "[" ++ String.intercalate ", " (Json.dumpsList xs) ++ "]"
  | .obj kvs => "\x7b" ++ String.intercalate ", " (Json.dumpsFields kvs) ++ "\x7d"

def Json.dumpsList : List Json → List String
  | [] => []
  | x :: xs => Json.dumps x :: Json.dumpsList xs

def Json.dumpsFields : List (String × Json) → List String
  | [] => []
  | (k, v) :: kvs => ("\"" ++ jsonEscape k ++ "\": " ++ Json.dumps v) :: Json.dumpsFields kvs

end

/-- One tool invocation carried by a model response: the invocation identifier
(`tool_call.id`), the operation name (`tool_call.function.name`) and the
argument payload.  agent.py receives the payload as a JSON-encoded string and
parses it with `json.loads` (line 370); the embedding carries the parsed JSON
object directly — a payload that fails to parse raises out of `run_agent`,
which is outside the behaviour under study. -/
structure ToolCall where
  id : String
  name : String
  arguments : Json
deriving Repr

/-- A model response message: its text content and its (possibly empty) list
of tool invocations.  A `None` content / `None` tool_calls from the provider
are modelled as the empty string / the empty list, which agent.py treats
identically (`if not tool_calls`). -/
structure AssistantMessage where
  content : String
  tool_calls : List ToolCall
deriving Repr

/-- One message of the Conversation agent.py builds in `messages`. -/
inductive Message where
  | system (content : String) : Message
  | user (content : String) : Message
  | assistant (msg : AssistantMessage) : Message
  | tool (tool_call_id : String) (name : String) (content : String) : Message
deriving Repr

/-- An observable external action of `run_agent`, recorded in the order the
actions are performed: a completion-endpoint call (with or without the tool
catalog) or a registry-client call. -/
inductive AgentEvent where
  | completion (withTools : Bool) : AgentEvent
  | registryCall (name : String) (arguments : Json) : AgentEvent
deriving Repr

/-- Whether an event is a registry-client call. -/
def AgentEvent.isRegistry : AgentEvent → Bool
  | .registryCall _ _ => true
  | _ => false

/-- Whether an event is a completion-endpoint call. -/
def AgentEvent.isCompletion : AgentEvent → Bool
  | .completion _ => true
  | _ => false

/-- The environment `run_agent` runs against: the completion endpoint (the
Boolean flag tells whether the tool catalog plus `tool_choice="auto"` is sent,
as in the first call, or no tools at all, as in the final call), and the
registry client as the dispatch `available_functions[name](**arguments)`
(agent.py lines 317-322, 376). -/
structure AgentEnv where
  complete : List Message → Bool → AssistantMessage
  callTool : String → Json → Json

/-- What `run_agent` produces, together with the trace needed to state the
orchestration properties: the returned answer, the final Conversation, and
the chronological list of external actions. -/
structure RunResult where
  answer : String
  messages : List Message
  events : List AgentEvent
deriving Repr

/-- The system prompt of agent.py lines 339-342. -/
def systemPrompt : String :=
  "You are a clinical trials research assistant. You help pharmaceutical researchers find information about clinical trials using the ClinicalTrials.gov database. Answer questions clearly and cite specific data when available."

/-- The Conversation as initialized at agent.py lines 338-347: the system
prompt followed by the user question. -/
def initialMessages (user_question : String) : List Message :=
  [.system systemPrompt, .user user_question]

/-- The tool-execution loop of agent.py lines 368-384: for each invocation in
order, call the registry client, then append one tool message carrying the
invocation's identifier, the operation name and the serialized result. -/
def execToolCalls (env : AgentEnv) :
    List ToolCall → List Message → List AgentEvent →
    List Message × List AgentEvent
  | [], messages, events => (messages, events)
  | tc :: rest, messages, events =>
    let function_response := env.callTool tc.name tc.arguments
    execToolCalls env rest
      (messages ++ [.tool tc.id tc.name function_response.dumps])
      (events ++ [.registryCall tc.name tc.arguments])

/-- Embedding of `run_agent` (agent.py lines 327-393): one completion call with tools; if
the response carries no tool invocations, return its content; otherwise append
the assistant message, run every tool invocation, make one completion call
without tools, and return that second call's content. -/
def run_agent (env : AgentEnv) (user_question : String) : RunResult :=
  let messages := initialMessages user_question
  let response_message := env.complete messages true
  let events := [AgentEvent.completion true]
  if response_message.tool_calls.isEmpty then
    { answer := response_message.content, messages := messages, events := events }
  else
    let messages := messages ++ [.assistant response_message]
    let (messages, events) :=
      execToolCalls env response_message.tool_calls messages events
    let final_response := env.complete messages false
    { answer := final_response.content,
      messages := messages,
      events := events ++ [AgentEvent.completion false] }

/-- Specification-side (follows the spec's words, for comparison with the
source's accumulation): the facility records of the filter-passing location
entries of one location list, in scan order. -/
def locsScan (country : Option String) : List Json → Except String (List Json)
  | [] => .ok []
  | loc :: rest => do
    if (← locSkipped country loc) then locsScan country rest
    else do
      let fi ← facility_info loc
      let rest' ← locsScan country rest
      .ok (fi :: rest')

/-- Specification-side: the facility records one study contributes to the
scan, in order. -/
def studyScan (country : Option String) (study : Json) :
    Except String (List Json) := do
  let protocol ← study.pyGet "protocolSection"
  if (← protocol.pyContains "contactsLocationsModule") then do
    let clm ← protocol.pyGet "contactsLocationsModule"
    let locations ← clm.pyGetD "locations" (.arr [])
    match locations with
    | .arr locs => locsScan country locs
    | _ => .error "TypeError: locations is not a list"
  else .ok []

/-- Specification-side: "the scan over studies and their locations" — the
flattened sequence of facility records of all filter-passing location entries,
studies in order, locations in order within a study. -/
def locationScan (country : Option String) (studies : List Json) :
    Except String (List Json) := do
  .ok (List.flatten (← mapME (studyScan country) studies))

/-- Specification-side first-seen deduplication: keep each element's first
occurrence, drop every later duplicate. -/
def dedupFirstSeen : List Json → List Json
  | [] => []
  | x :: xs => x :: dedupFirstSeen (xs.filter (fun y => !(y == x)))
termination_by l => l.length
decreasing_by
  simp only [List.length_cons]
  exact Nat.lt_succ_of_le (List.length_filter_le _ _)

/-- A 200 response whose body carries exactly the given `studies` array. -/
def mkStudiesResp (studies : List Json) : HttpResponse :=
  ⟨200, .obj [("studies", .arr studies)]⟩

/-- A minimal study record carrying only the raising identification path
`protocolSection → identificationModule → {nctId, briefTitle}` and none of
the optional modules. -/
def idOnlyStudy (nct title : String) : Json :=
  .obj [("protocolSection", .obj [("identificationModule",
    .obj [("nctId", .str nct), ("briefTitle", .str title)])])]

/-- A minimal study record carrying only a brief title. -/
def titleOnlyStudy (title : String) : Json :=
  .obj [("protocolSection", .obj [("identificationModule",
    .obj [("briefTitle", .str title)])])]

/-- A study record with a single location that carries only a city. -/
def locOnlyCityStudy (city : String) : Json :=
  .obj [("protocolSection", .obj [("contactsLocationsModule",
    .obj [("locations", .arr [.obj [("city", .str city)]])])])]

/-- A location list with 21 pairwise-distinct city names. -/
def manyLocations : List Json :=
  (List.range 21).map fun i => .obj [("city", .str ⟨List.replicate i 'a'⟩)]

/-- A 200 response carrying one study whose location list is
`manyLocations`. -/
def manyLocationsResp : HttpResponse :=
  ⟨200, .obj [("studies", .arr [.obj [("protocolSection",
      .obj [("contactsLocationsModule",
        .obj [("locations", .arr manyLocations)])])]])]⟩

/-- The 21 distinct facility records `manyLocationsResp` produces. -/
def manyFacilities : List Json :=
  (List.range 21).map fun i => .obj [("facility", .str "N/A"),
    ("city", .str ⟨List.replicate i 'a'⟩), ("country", .str "N/A")]

/-- The summary `get_trial_locations` returns on `manyLocationsResp`. -/
def manyLocationsOut : Json :=
  .obj [("condition", .str "depression"), ("country", .str "all"),
        ("number_of_facilities", .num 21),
        ("facilities", .arr (manyFacilities.take 20))]

/-- The duplicated-triple response used to witness C5. -/
def dupLocResp : HttpResponse :=
  ⟨200, .obj [("studies", .arr [
    .obj [("protocolSection", .obj [("identificationModule", .obj []),
      ("contactsLocationsModule", .obj [("locations", .arr [
        .obj [("facility", .str "H1"), ("city", .str "Madrid"),
              ("country", .str "spain")],
        .obj [("facility", .str "H1"), ("city", .str "Madrid"),
              ("country", .str "spain")],
        .obj [("facility", .str "H2"), ("city", .str "Paris"),
              ("country", .str "France")]])])])]])]⟩

/-- The summary `get_trial_locations` returns on `dupLocResp` without a
country filter. -/
def dupLocOut : Json :=
  .obj [("condition", .str "depression"), ("country", .str "all"),
        ("number_of_facilities", .num 2),
        ("facilities", .arr [
          .obj [("facility", .str "H1"), ("city", .str "Madrid"),
                ("country", .str "spain")],
          .obj [("facility", .str "H2"), ("city", .str "Paris"),
                ("country", .str "France")]])]

/-! ## Concrete evaluations of the embedded operations -/

example :
    count_trials "diabetes" "RECRUITING"
      ⟨200, .obj [("studies", .arr [])]⟩ =
    .ok (.obj [("count", .num 0), ("condition", .str "diabetes"),
               ("status", .str "RECRUITING"), ("sample_titles", .arr [])]) := by
  rfl

example :
    count_trials "diabetes" "RECRUITING" ⟨404, .null⟩ =
    .ok (.obj [("error", .str "API error: 404")]) := by rfl

example :
    get_trial_phases "asthma" "PHASE3"
      ⟨200, .obj [("studies", .arr [
        .obj [("protocolSection", .obj [("identificationModule",
          .obj [("nctId", .str "NCT1"), ("briefTitle", .str "T1")])])]])]⟩ =
    .ok (.obj [("condition", .str "asthma"), ("phase", .str "PHASE3"),
               ("count", .num 1),
               ("trials", .arr [.obj [("nct_id", .str "NCT1"),
                 ("title", .str "T1"), ("phase", .arr [.str "N/A"]),
                 ("start_date", .str "N/A"),
                 ("completion_date", .str "N/A")]])]) := by rfl

example :
    get_trial_locations "depression" (some "Spain")
      ⟨200, .obj [("studies", .arr [
        .obj [("protocolSection", .obj [("identificationModule", .obj []),
          ("contactsLocationsModule", .obj [("locations", .arr [
            .obj [("facility", .str "H1"), ("city", .str "Madrid"),
                  ("country", .str "spain")],
            .obj [("facility", .str "H2"), ("city", .str "Paris"),
                  ("country", .str "France")],
            .obj [("facility", .str "H1"), ("city", .str "Madrid"),
                  ("country", .str "spain")]])])])]])]⟩ =
    .ok (.obj [("condition", .str "depression"), ("country", .str "Spain"),
               ("number_of_facilities", .num 1),
               ("facilities", .arr [.obj [("facility", .str "H1"),
                 ("city", .str "Madrid"), ("country", .str "spain")]])]) := by rfl


/-! ## Helper lemmas -/

@[simp] theorem exceptBind_ok {α β ε : Type} (a : α) (f : α → Except ε β) :
    (Except.ok a >>= f) = f a := rfl

@[simp] theorem exceptBind_error {α β ε : Type} (e : ε) (f : α → Except ε β) :
    ((Except.error e : Except ε α) >>= f) = Except.error e := rfl

/-- A successful `mapME` yields as many outputs as inputs. -/
theorem mapME_ok_length {α β : Type} (f : α → Except String β) :
    ∀ {xs : List α} {ys : List β}, mapME f xs = .ok ys → ys.length = xs.length
  | [], ys, h => by
    simp [mapME] at h
    simp [← h]
  | x :: xs, ys, h => by
    simp only [mapME] at h
    cases hfx : f x with
    | error e => rw [hfx] at h; simp at h
    | ok y =>
      rw [hfx] at h
      cases hm : mapME f xs with
      | error e => rw [hm] at h; simp at h
      | ok ys' =>
        rw [hm] at h
        simp at h
        subst h
        simp [mapME_ok_length f hm]

/-- Mapping over a list of images succeeds elementwise when the body does. -/
theorem mapME_map_ok {α β γ : Type} (f : β → Except String γ) (g : α → β)
    (h : γ → α → Prop) (hg : ∀ a, ∃ c, f (g a) = .ok c ∧ h c a) :
    ∀ xs : List α, ∃ cs : List γ, mapME f (xs.map g) = .ok cs ∧
      cs.length = xs.length ∧ ∀ i (hi : i < cs.length) (hi' : i < xs.length),
        h (cs.get ⟨i, hi⟩) (xs.get ⟨i, hi'⟩)
  | [] => ⟨[], by simp [mapME], by simp, by intro i hi; simp at hi⟩
  | x :: xs => by
    obtain ⟨c, hc, hcx⟩ := hg x
    obtain ⟨cs, hcs, hlen, hidx⟩ := mapME_map_ok f g h hg xs
    refine ⟨c :: cs, ?_, by simp [hlen], ?_⟩
    · simp [mapME, hc, hcs]
    · intro i hi hi'
      cases i with
      | zero => simpa using hcx
      | succ n =>
        simp only [List.get] at *
        exact hidx n (by simpa using hi) (by simpa using hi')

/-! ## C1: non-200 responses -/

/-- C1: for each of the four Registry Client operations, a non-200 upstream
response makes the operation return (not raise) the error dictionary; that
dictionary's only key is `error`, whose value is a string ending in the
decimal status code, and none of the studies-derived keys (`count`,
`criteria`, `facilities`, `trials`) is present. -/
theorem C1_non200_yields_error_dict (condition status phase : String)
    (max_trials : Int) (country : Option String) (resp : HttpResponse)
    (h : resp.status_code ≠ 200) :
    count_trials condition status resp = .ok (apiError resp.status_code) ∧
    get_eligibility_criteria condition max_trials resp
      = .ok (apiError resp.status_code) ∧
    get_trial_locations condition country resp
      = .ok (apiError resp.status_code) ∧
    get_trial_phases condition phase resp = .ok (apiError resp.status_code) ∧
    (apiError resp.status_code).pyGet "error"
      = .ok (.str ("API error: " ++ toString resp.status_code)) ∧
    (apiError resp.status_code).hasKey "count" = false ∧
    (apiError resp.status_code).hasKey "criteria" = false ∧
    (apiError resp.status_code).hasKey "facilities" = false ∧
    (apiError resp.status_code).hasKey "trials" = false := by
  unfold count_trials get_eligibility_criteria get_trial_locations
    get_trial_phases
  simp [h, apiError, Json.pyGet, Json.hasKey, List.lookup]

/-- Witness for C1 at status 404. -/
theorem C1_witness :
    (404 : Nat) ≠ 200 ∧
    count_trials "diabetes" "RECRUITING" ⟨404, .null⟩ = .ok (apiError 404) :=
  ⟨by decide,
   (C1_non200_yields_error_dict "diabetes" "RECRUITING" "PHASE3" 5 none
      ⟨404, .null⟩ (by decide)).1⟩

/-! ## C2 and C3: the orchestration loop -/

/-- Unrolling the tool-execution loop: it appends one tool message and records
one registry call per invocation, in invocation order. -/
theorem execToolCalls_eq (env : AgentEnv) :
    ∀ (tcs : List ToolCall) (ms : List Message) (evs : List AgentEvent),
      execToolCalls env tcs ms evs =
        (ms ++ tcs.map (fun tc =>
            Message.tool tc.id tc.name (Json.dumps (env.callTool tc.name tc.arguments))),
         evs ++ tcs.map (fun tc => AgentEvent.registryCall tc.name tc.arguments))
  | [], ms, evs => by simp [execToolCalls]
  | tc :: rest, ms, evs => by
    simp [execToolCalls, execToolCalls_eq env rest]

/-- C3: when the model's first response carries no tool invocations,
`run_agent` returns that response's text verbatim, issues exactly one
completion call, and makes no registry calls. -/
theorem C3_no_tools_returns_verbatim (env : AgentEnv) (q : String)
    (rm : AssistantMessage)
    (hrm : env.complete (initialMessages q) true = rm)
    (hempty : rm.tool_calls = []) :
    (run_agent env q).answer = rm.content ∧
    (run_agent env q).events = [AgentEvent.completion true] ∧
    ((run_agent env q).events.filter AgentEvent.isRegistry).length = 0 ∧
    ((run_agent env q).events.filter AgentEvent.isCompletion).length = 1 := by
  simp only [run_agent]
  rw [hrm]
  simp [hempty, AgentEvent.isRegistry, AgentEvent.isCompletion]

/-- Witness for C3: a model that answers directly. -/
theorem C3_witness :
    (AgentEnv.mk (fun _ _ => ⟨"direct answer", []⟩) (fun _ _ => .null)).complete
        (initialMessages "hi") true = ⟨"direct answer", []⟩ ∧
    (⟨"direct answer", []⟩ : AssistantMessage).tool_calls = [] ∧
    (run_agent (AgentEnv.mk (fun _ _ => ⟨"direct answer", []⟩)
        (fun _ _ => .null)) "hi").answer = "direct answer" :=
  ⟨rfl, rfl,
   (C3_no_tools_returns_verbatim
      (AgentEnv.mk (fun _ _ => ⟨"direct answer", []⟩) (fun _ _ => .null))
      "hi" ⟨"direct answer", []⟩ rfl rfl).1⟩

/-- C2: when the model's first response carries tool invocations, `run_agent`
makes one registry call per invocation in invocation order, appends one
tool-result message tagged with each invocation's identifier, then makes
exactly one further completion call and returns its text content. -/
theorem C2_tool_branch (env : AgentEnv) (q : String) (rm : AssistantMessage)
    (hrm : env.complete (initialMessages q) true = rm)
    (hne : rm.tool_calls ≠ []) :
    (run_agent env q).messages =
      initialMessages q ++ [Message.assistant rm] ++
        rm.tool_calls.map (fun tc =>
          Message.tool tc.id tc.name (Json.dumps (env.callTool tc.name tc.arguments))) ∧
    (run_agent env q).events =
      [AgentEvent.completion true] ++
        rm.tool_calls.map (fun tc => AgentEvent.registryCall tc.name tc.arguments) ++
        [AgentEvent.completion false] ∧
    ((run_agent env q).events.filter AgentEvent.isRegistry).length
      = rm.tool_calls.length ∧
    ((run_agent env q).events.filter AgentEvent.isCompletion).length = 2 ∧
    (run_agent env q).answer
      = (env.complete ((run_agent env q).messages) false).content := by
  simp only [run_agent]
  rw [hrm]
  have hne' : rm.tool_calls.isEmpty = false := by
    cases h : rm.tool_calls with
    | nil => exact absurd h hne
    | cons a l => rfl
  simp only [hne', Bool.false_eq_true, if_false, execToolCalls_eq]
  refine ⟨by simp [initialMessages], ?_, ?_, ?_, by simp⟩
  · simp
  · simp [List.filter_append, List.filter_map, AgentEvent.isRegistry,
      Function.comp]
  · simp [List.filter_append, List.filter_map, AgentEvent.isRegistry,
      AgentEvent.isCompletion, Function.comp]

/-- Witness for C2: a model that requests two tool invocations. -/
theorem C2_witness :
    ((AgentEnv.mk
        (fun _ withTools => if withTools then
            ⟨"", [⟨"call_1", "count_trials", .obj [("condition", .str "diabetes")]⟩,
                  ⟨"call_2", "get_trial_phases", .obj [("condition", .str "asthma"),
                    ("phase", .str "PHASE3")]⟩]⟩
          else ⟨"final answer", []⟩)
        (fun _ _ => .obj [("count", .num 0)])).complete
      (initialMessages "q") true).tool_calls ≠ [] ∧
    ((run_agent (AgentEnv.mk
        (fun _ withTools => if withTools then
            ⟨"", [⟨"call_1", "count_trials", .obj [("condition", .str "diabetes")]⟩,
                  ⟨"call_2", "get_trial_phases", .obj [("condition", .str "asthma"),
                    ("phase", .str "PHASE3")]⟩]⟩
          else ⟨"final answer", []⟩)
        (fun _ _ => .obj [("count", .num 0)])) "q").events.filter
      AgentEvent.isRegistry).length = 2 :=
  ⟨fun h => List.noConfusion h,
   (C2_tool_branch (AgentEnv.mk
        (fun _ withTools => if withTools then
            ⟨"", [⟨"call_1", "count_trials", .obj [("condition", .str "diabetes")]⟩,
                  ⟨"call_2", "get_trial_phases", .obj [("condition", .str "asthma"),
                    ("phase", .str "PHASE3")]⟩]⟩
          else ⟨"final answer", []⟩)
        (fun _ _ => .obj [("count", .num 0)])) "q" _ rfl
      (fun h => List.noConfusion h)).2.2.1⟩

/-! ## C7: absent or empty `studies` -/

/-- C7: for each of the four Registry Client operations, a 200 response whose
body lacks the `studies` key, or maps it to the empty array, yields a summary
with zero count and empty lists, without raising. -/
theorem C7_empty_studies (c s p : String) (m : Int) (co : Option String)
    (resp : HttpResponse) (kvs : List (String × Json))
    (hs : resp.status_code = 200) (hb : resp.body = .obj kvs)
    (hstud : kvs.lookup "studies" = none ∨
             kvs.lookup "studies" = some (.arr [])) :
    count_trials c s resp =
      .ok (.obj [("count", .num 0), ("condition", .str c),
                 ("status", .str s), ("sample_titles", .arr [])]) ∧
    get_eligibility_criteria c m resp =
      .ok (.obj [("condition", .str c), ("number_of_trials", .num 0),
                 ("criteria", .arr [])]) ∧
    get_trial_locations c co resp =
      .ok (.obj [("condition", .str c),
                 ("country", .str (if strOptTruthy co then co.getD "" else "all")),
                 ("number_of_facilities", .num 0), ("facilities", .arr [])]) ∧
    get_trial_phases c p resp =
      .ok (.obj [("condition", .str c), ("phase", .str p),
                 ("count", .num 0), ("trials", .arr [])]) := by
  unfold count_trials get_eligibility_criteria get_trial_locations
    get_trial_phases
  rcases hstud with h | h <;>
    simp [hs, hb, Json.pyGetD, h, mapME, foldME]

/-- Witness for C7: a 200 response with no `studies` key at all. -/
theorem C7_witness :
    (HttpResponse.mk 200 (.obj [])).status_code = 200 ∧
    count_trials "diabetes" "RECRUITING" ⟨200, .obj []⟩ =
      .ok (.obj [("count", .num 0), ("condition", .str "diabetes"),
                 ("status", .str "RECRUITING"), ("sample_titles", .arr [])]) :=
  ⟨rfl,
   (C7_empty_studies "diabetes" "RECRUITING" "PHASE3" 5 none ⟨200, .obj []⟩ []
      rfl rfl (Or.inl rfl)).1⟩

/-! ## Elimination helpers for successful 200-branch runs -/

/-- Dissecting a successful `count_trials` run on a 200 response. -/
theorem count_trials_ok_elim (c s : String) (resp : HttpResponse) (out : Json)
    (hs : resp.status_code = 200) (hok : count_trials c s resp = .ok out) :
    ∃ xs titles, resp.body.pyGetD "studies" (.arr []) = .ok (.arr xs) ∧
      mapME (fun st => do
          let ps ← st.pyGet "protocolSection"
          let im ← ps.pyGet "identificationModule"
          im.pyGet "briefTitle") (xs.take 3) = .ok titles ∧
      out = .obj [("count", .num xs.length), ("condition", .str c),
                  ("status", .str s), ("sample_titles", .arr titles)] := by
  unfold count_trials at hok
  rw [if_pos hs] at hok
  cases hg : resp.body.pyGetD "studies" (.arr []) with
  | error e => rw [hg] at hok; simp at hok
  | ok studies =>
    rw [hg] at hok
    simp only [exceptBind_ok] at hok
    split at hok
    · rename_i xs
      cases hm : mapME (fun st => do
          let ps ← st.pyGet "protocolSection"
          let im ← ps.pyGet "identificationModule"
          im.pyGet "briefTitle") (xs.take 3) with
      | error e => rw [hm] at hok; simp at hok
      | ok titles =>
        rw [hm] at hok
        simp only [exceptBind_ok, Except.ok.injEq] at hok
        exact ⟨xs, titles, rfl, hm, hok.symm⟩
    · simp at hok

/-- Dissecting a successful `get_trial_locations` run on a 200 response. -/
theorem get_trial_locations_ok_elim (c : String) (co : Option String)
    (resp : HttpResponse) (out : Json) (hs : resp.status_code = 200)
    (hok : get_trial_locations c co resp = .ok out) :
    ∃ xs facs, resp.body.pyGetD "studies" (.arr []) = .ok (.arr xs) ∧
      foldME (collectStudy co) [] xs = .ok facs ∧
      out = .obj [("condition", .str c),
                  ("country", .str (if strOptTruthy co then co.getD "" else "all")),
                  ("number_of_facilities", .num facs.length),
                  ("facilities", .arr (facs.take 20))] := by
  unfold get_trial_locations at hok
  rw [if_pos hs] at hok
  cases hg : resp.body.pyGetD "studies" (.arr []) with
  | error e => rw [hg] at hok; simp at hok
  | ok studies =>
    rw [hg] at hok
    simp only [exceptBind_ok] at hok
    split at hok
    · rename_i xs
      cases hf : foldME (collectStudy co) [] xs with
      | error e => rw [hf] at hok; simp at hok
      | ok facs =>
        rw [hf] at hok
        simp only [exceptBind_ok, Except.ok.injEq] at hok
        exact ⟨xs, facs, rfl, hf, hok.symm⟩
    · simp at hok

/-! ## C9: truncation caps -/

/-- C9: on every 200 response, the `sample_titles` list of `count_trials` has
at most 3 entries and the `facilities` list of `get_trial_locations` has at
most 20 entries. -/
theorem C9_truncation_caps (c1 s1 c2 : String) (co : Option String)
    (resp1 resp2 : HttpResponse) (out1 out2 : Json)
    (hs1 : resp1.status_code = 200) (hs2 : resp2.status_code = 200)
    (h1 : count_trials c1 s1 resp1 = .ok out1)
    (h2 : get_trial_locations c2 co resp2 = .ok out2) :
    (∃ ts, out1.pyGet "sample_titles" = .ok (.arr ts) ∧ ts.length ≤ 3) ∧
    (∃ fs, out2.pyGet "facilities" = .ok (.arr fs) ∧ fs.length ≤ 20) := by
  obtain ⟨xs, titles, hg, hm, hout⟩ := count_trials_ok_elim c1 s1 resp1 out1 hs1 h1
  obtain ⟨ys, facs, hg2, hf, hout2⟩ :=
    get_trial_locations_ok_elim c2 co resp2 out2 hs2 h2
  subst hout hout2
  constructor
  · refine ⟨titles, rfl, ?_⟩
    have := mapME_ok_length _ hm
    rw [this, List.length_take]
    exact min_le_left _ _
  · refine ⟨facs.take 20, rfl, ?_⟩
    rw [List.length_take]
    exact min_le_left _ _

/-- Witness for C9 on a 200 response with four studies and many locations. -/
theorem C9_witness :
    (HttpResponse.mk 200 (.obj [("studies", .arr [])])).status_code = 200 ∧
    (∃ ts, (Json.obj [("count", .num 0), ("condition", .str "flu"),
        ("status", .str "RECRUITING"),
        ("sample_titles", .arr [])]).pyGet "sample_titles"
        = .ok (.arr ts) ∧ ts.length ≤ 3) :=
  ⟨rfl,
   (C9_truncation_caps "flu" "RECRUITING" "flu" none
      ⟨200, .obj [("studies", .arr [])]⟩ ⟨200, .obj [("studies", .arr [])]⟩
      _ _ rfl rfl rfl rfl).1⟩

/-! ## C10: `number_of_facilities` counts before truncation -/

/-- C10: on every 200 response, `number_of_facilities` is the length of the
full accumulated deduplicated list while `facilities` is its 20-entry
truncation; on a concrete response with 21 distinct facility triples the
reported count strictly exceeds the returned list's length. -/
theorem C10_count_exceeds_truncated_list (c : String) (co : Option String)
    (resp : HttpResponse) (out : Json) (hs : resp.status_code = 200)
    (hok : get_trial_locations c co resp = .ok out) :
    (∃ xs facs, resp.body.pyGetD "studies" (.arr []) = .ok (.arr xs) ∧
        foldME (collectStudy co) [] xs = .ok facs ∧
        out.pyGet "number_of_facilities" = .ok (.num facs.length) ∧
        out.pyGet "facilities" = .ok (.arr (facs.take 20))) ∧
    get_trial_locations "depression" none manyLocationsResp
      = .ok manyLocationsOut ∧
    manyLocationsOut.pyGet "number_of_facilities" = .ok (.num 21) ∧
    manyLocationsOut.pyGet "facilities" = .ok (.arr (manyFacilities.take 20)) ∧
    (manyFacilities.take 20).length < 21 := by
  obtain ⟨xs, facs, hg, hf, hout⟩ :=
    get_trial_locations_ok_elim c co resp out hs hok
  subst hout
  exact ⟨⟨xs, facs, hg, hf, rfl, rfl⟩, rfl, rfl, rfl, by decide⟩

/-- Witness for C10 at `manyLocationsResp` itself. -/
theorem C10_witness :
    manyLocationsResp.status_code = 200 ∧
    (∃ xs facs,
        manyLocationsResp.body.pyGetD "studies" (.arr []) = .ok (.arr xs) ∧
        foldME (collectStudy none) [] xs = .ok facs ∧
        manyLocationsOut.pyGet "number_of_facilities" = .ok (.num facs.length) ∧
        manyLocationsOut.pyGet "facilities" = .ok (.arr (facs.take 20))) :=
  ⟨rfl,
   (C10_count_exceeds_truncated_list "depression" none manyLocationsResp
      manyLocationsOut rfl rfl).1⟩

/-! ## C5: first-seen deduplication -/

theorem json_contains_append (l1 l2 : List Json) (a : Json) :
    (l1 ++ l2).contains a = (l1.contains a || l2.contains a) := by
  rw [Bool.eq_iff_iff]
  simp [List.elem_iff, List.mem_append]

theorem json_contains_singleton (x a : Json) :
    ([x].contains a) = (a == x) := by
  rw [Bool.eq_iff_iff]
  simp [List.elem_iff]

/-- The source's insert-if-absent fold computes exactly the first-seen
deduplication of the part of the scan not already accumulated. -/
theorem foldl_insertNew_eq :
    ∀ (scan acc : List Json),
      scan.foldl insertNew acc
        = acc ++ dedupFirstSeen (scan.filter (fun y => !(acc.contains y)))
  | [], acc => by simp [dedupFirstSeen]
  | x :: s, acc => by
    rw [List.foldl_cons]
    by_cases hx : x ∈ acc
    · have hc : acc.contains x = true := List.elem_iff.mpr hx
      have h1 : insertNew acc x = acc := by
        unfold insertNew
        rw [hc]
        rfl
      have hfil : (x :: s).filter (fun y => !(acc.contains y))
          = s.filter (fun y => !(acc.contains y)) := by
        apply List.filter_cons_of_neg
        simp [hc]
        exact hx
      rw [h1, hfil, foldl_insertNew_eq s acc]
    · have hc : acc.contains x = false := by
        cases h : acc.contains x with
        | true => exact absurd (List.elem_iff.mp h) hx
        | false => rfl
      have h1 : insertNew acc x = acc ++ [x] := by
        unfold insertNew
        rw [hc]
        rfl
      have hfil : (x :: s).filter (fun y => !(acc.contains y))
          = x :: s.filter (fun y => !(acc.contains y)) := by
        apply List.filter_cons_of_pos
        simp [hc]
        exact hx
      have h2 : s.filter (fun y => !((acc ++ [x]).contains y))
          = (s.filter (fun y => !(acc.contains y))).filter (fun y => !(y == x)) := by
        rw [List.filter_filter]
        apply List.filter_congr
        intro y hy
        rw [json_contains_append, json_contains_singleton]
        cases acc.contains y <;> cases (y == x) <;> rfl
      rw [h1, foldl_insertNew_eq s (acc ++ [x]), h2, hfil, dedupFirstSeen]
      simp

/-- Every element of the first-seen deduplication comes from the list and
vice versa. -/
theorem mem_dedupFirstSeen : ∀ (l : List Json) (y : Json),
    y ∈ dedupFirstSeen l ↔ y ∈ l
  | [], y => by simp [dedupFirstSeen]
  | x :: xs, y => by
    rw [dedupFirstSeen]
    have IH := mem_dedupFirstSeen (xs.filter (fun z => !(z == x))) y
    simp only [List.mem_cons, IH, List.mem_filter, Bool.not_eq_eq_eq_not,
      Bool.not_true, beq_eq_false_iff_ne, ne_eq]
    constructor
    · rintro (h | ⟨h, _⟩)
      · exact Or.inl h
      · exact Or.inr h
    · rintro (h | h)
      · exact Or.inl h
      · by_cases hyx : y = x
        · exact Or.inl hyx
        · exact Or.inr ⟨h, hyx⟩
termination_by l => l.length
decreasing_by
  simp only [List.length_cons]
  exact Nat.lt_succ_of_le (List.length_filter_le _ _)

/-- The first-seen deduplication has no duplicates. -/
theorem nodup_dedupFirstSeen : ∀ l : List Json, (dedupFirstSeen l).Nodup
  | [] => by simp [dedupFirstSeen]
  | x :: xs => by
    rw [dedupFirstSeen]
    refine List.nodup_cons.mpr ⟨?_, nodup_dedupFirstSeen _⟩
    rw [mem_dedupFirstSeen]
    intro hmem
    have := (List.mem_filter.mp hmem).2
    simp at this
termination_by l => l.length
decreasing_by
  simp only [List.length_cons]
  exact Nat.lt_succ_of_le (List.length_filter_le _ _)

/-- The inner location loop refines the filter-then-collect scan followed by
insert-if-absent folding. -/
theorem foldME_addLocation_ok (co : Option String) :
    ∀ (locs acc res : List Json),
      foldME (addLocation co) acc locs = .ok res →
      ∃ scan, locsScan co locs = .ok scan ∧ res = scan.foldl insertNew acc
  | [], acc, res, h => by
    simp only [foldME, Except.ok.injEq] at h
    exact ⟨[], rfl, by simp [h]⟩
  | loc :: rest, acc, res, h => by
    simp only [foldME] at h
    cases hskip : locSkipped co loc with
    | error e =>
      rw [addLocation, hskip] at h
      simp at h
    | ok b =>
      cases b with
      | true =>
        have h' : foldME (addLocation co) acc rest = .ok res := by
          rw [addLocation, hskip] at h
          simpa using h
        obtain ⟨scan, hscan, hres⟩ := foldME_addLocation_ok co rest acc res h'
        exact ⟨scan, by simp [locsScan, hskip, hscan], hres⟩
      | false =>
        cases hfi : facility_info loc with
        | error e =>
          rw [addLocation, hskip] at h
          simp only [exceptBind_ok, Bool.false_eq_true, if_false] at h
          rw [hfi] at h
          simp at h
        | ok fi =>
          have h' : foldME (addLocation co) (insertNew acc fi) rest = .ok res := by
            rw [addLocation, hskip] at h
            simp only [exceptBind_ok, Bool.false_eq_true, if_false] at h
            rw [hfi] at h
            simpa using h
          obtain ⟨scan, hscan, hres⟩ :=
            foldME_addLocation_ok co rest (insertNew acc fi) res h'
          refine ⟨fi :: scan, ?_, by simp [hres]⟩
          simp [locsScan, hskip, hfi, hscan]

/-- One outer-loop iteration refines one study's scan contribution. -/
theorem collectStudy_ok (co : Option String) (study : Json)
    (acc res : List Json) (h : collectStudy co acc study = .ok res) :
    ∃ scan, studyScan co study = .ok scan ∧ res = scan.foldl insertNew acc := by
  unfold collectStudy at h
  unfold studyScan
  cases hp : study.pyGet "protocolSection" with
  | error e => simp only [hp, exceptBind_error] at h; simp at h
  | ok protocol =>
    simp only [hp, exceptBind_ok] at h ⊢
    cases hc : protocol.pyContains "contactsLocationsModule" with
    | error e => simp only [hc, exceptBind_error] at h; simp at h
    | ok b =>
      simp only [hc, exceptBind_ok] at h ⊢
      cases b with
      | false =>
        simp only [Bool.false_eq_true, if_false, Except.ok.injEq] at h ⊢
        exact ⟨[], rfl, by simp [h]⟩
      | true =>
        simp only [if_pos] at h ⊢
        cases hclm : protocol.pyGet "contactsLocationsModule" with
        | error e => simp only [hclm, exceptBind_error] at h; simp at h
        | ok clm =>
          simp only [hclm, exceptBind_ok] at h ⊢
          cases hlocs : clm.pyGetD "locations" (.arr []) with
          | error e => simp only [hlocs, exceptBind_error] at h; simp at h
          | ok locations =>
            simp only [hlocs, exceptBind_ok] at h ⊢
            split at h
            · rename_i locs
              exact foldME_addLocation_ok co locs acc res h
            · simp at h

/-- The whole study loop refines the flattened scan followed by
insert-if-absent folding. -/
theorem foldME_collect_ok (co : Option String) :
    ∀ (studies acc res : List Json),
      foldME (collectStudy co) acc studies = .ok res →
      ∃ ls, mapME (studyScan co) studies = .ok ls ∧
        res = (List.flatten ls).foldl insertNew acc
  | [], acc, res, h => by
    simp only [foldME, Except.ok.injEq] at h
    exact ⟨[], rfl, by simp [h]⟩
  | study :: rest, acc, res, h => by
    simp only [foldME] at h
    cases hcs : collectStudy co acc study with
    | error e => rw [hcs] at h; simp at h
    | ok acc1 =>
      rw [hcs] at h
      simp only [exceptBind_ok] at h
      obtain ⟨scan_s, hscan_s, hacc1⟩ := collectStudy_ok co study acc acc1 hcs
      obtain ⟨ls, hls, hres⟩ := foldME_collect_ok co rest acc1 res h
      refine ⟨scan_s :: ls, by simp [mapME, hscan_s, hls], ?_⟩
      rw [List.flatten_cons, List.foldl_append, ← hacc1]
      exact hres

/-- In a duplicate-free list, every member is counted exactly once. -/
theorem json_count_eq_one {l : List Json} {a : Json} (hn : l.Nodup)
    (ha : a ∈ l) : l.count a = 1 := by
  induction l with
  | nil => simp at ha
  | cons x xs ih =>
    rw [List.count_cons]
    by_cases hax : a = x
    · subst hax
      have hx : a ∉ xs := (List.nodup_cons.mp hn).1
      have h0 : xs.count a = 0 := List.count_eq_zero.mpr hx
      simp [h0]
    · have hmem : a ∈ xs := by
        rcases List.mem_cons.mp ha with h | h
        · exact absurd h hax
        · exact h
      have h1 := ih (List.nodup_cons.mp hn).2 hmem
      have h2 : (x == a) = false := by
        simp only [beq_eq_false_iff_ne, ne_eq]
        exact fun h => hax h.symm
      simp [h1, h2]

/-- C5: on every 200 response, the accumulated facility list of
`get_trial_locations` is exactly the first-seen deduplication of the scan over
studies and their filter-passing locations: it contains exactly one entry for
every record occurring in the scan (so duplicated (facility, city, country)
triples collapse to one), in first-seen scan order. -/
theorem C5_dedup_first_seen (c : String) (co : Option String)
    (resp : HttpResponse) (out : Json) (hs : resp.status_code = 200)
    (hok : get_trial_locations c co resp = .ok out) :
    ∃ xs scan facs,
      resp.body.pyGetD "studies" (.arr []) = .ok (.arr xs) ∧
      locationScan co xs = .ok scan ∧
      foldME (collectStudy co) [] xs = .ok facs ∧
      facs = dedupFirstSeen scan ∧
      facs.Nodup ∧
      (∀ fi ∈ scan, facs.count fi = 1) ∧
      out.pyGet "facilities" = .ok (.arr (facs.take 20)) := by
  obtain ⟨xs, facs, hg, hf, hout⟩ :=
    get_trial_locations_ok_elim c co resp out hs hok
  obtain ⟨ls, hls, hres⟩ := foldME_collect_ok co xs [] facs hf
  have hscan : locationScan co xs = .ok (List.flatten ls) := by
    simp [locationScan, hls]
  have hfil : List.filter (fun y => !(([] : List Json).contains y))
      (List.flatten ls) = List.flatten ls :=
    List.filter_eq_self.mpr (fun a _ => rfl)
  have hfacs : facs = dedupFirstSeen (List.flatten ls) := by
    rw [hres, foldl_insertNew_eq, hfil, List.nil_append]
  refine ⟨xs, List.flatten ls, facs, hg, hscan, hf, hfacs, ?_, ?_, ?_⟩
  · rw [hfacs]; exact nodup_dedupFirstSeen _
  · intro fi hfi
    rw [hfacs]
    exact json_count_eq_one (nodup_dedupFirstSeen _)
      ((mem_dedupFirstSeen _ _).mpr hfi)
  · rw [hout]
    rfl

/-- Witness for C5 on a response with a duplicated facility triple. -/
theorem C5_witness :
    dupLocResp.status_code = 200 ∧
    get_trial_locations "depression" none dupLocResp = .ok dupLocOut ∧
    (∃ xs scan facs,
      dupLocResp.body.pyGetD "studies" (.arr []) = .ok (.arr xs) ∧
      locationScan none xs = .ok scan ∧
      foldME (collectStudy none) [] xs = .ok facs ∧
      facs = dedupFirstSeen scan ∧
      facs.Nodup ∧
      (∀ fi ∈ scan, facs.count fi = 1) ∧
      dupLocOut.pyGet "facilities" = .ok (.arr (facs.take 20))) :=
  ⟨rfl, rfl,
   C5_dedup_first_seen "depression" none dupLocResp dupLocOut rfl rfl⟩

/-! ## C8: case-insensitive country filter -/

/-- C8: in `get_trial_locations` with a truthy country filter, a location
entry passes the filter (is not skipped) exactly when its country value
equals the filter argument up to letter case; an entry without a country
value passes only for a filter that lowercases to the empty string; a
filtered-out entry leaves the accumulation unchanged while a passing entry is
inserted (modulo deduplication). -/
theorem C8_country_filter_case_insensitive (c : String) (hc : c ≠ "")
    (kvs : List (String × Json)) :
    (∀ s, kvs.lookup "country" = some (.str s) →
        (locSkipped (some c) (.obj kvs) = .ok false ↔ pyLower s = pyLower c)) ∧
    (kvs.lookup "country" = none →
        (locSkipped (some c) (.obj kvs) = .ok false ↔ pyLower "" = pyLower c)) ∧
    (∀ s acc, kvs.lookup "country" = some (.str s) → pyLower s ≠ pyLower c →
        addLocation (some c) acc (.obj kvs) = .ok acc) ∧
    (∀ s acc fi, kvs.lookup "country" = some (.str s) → pyLower s = pyLower c →
        facility_info (.obj kvs) = .ok fi →
        addLocation (some c) acc (.obj kvs) = .ok (insertNew acc fi)) := by
  have hce : c.isEmpty = false := by
    cases h : c.isEmpty with
    | true => exact absurd ((String.isEmpty_iff c).mp h) hc
    | false => rfl
  refine ⟨?_, ?_, ?_, ?_⟩
  · intro s hlk
    rw [locSkipped]
    simp [hce, Json.pyGetD, hlk]
  · intro hlk
    rw [locSkipped]
    simp [hce, Json.pyGetD, hlk]
  · intro s acc hlk hne
    rw [addLocation, locSkipped]
    simp [hce, Json.pyGetD, hlk, hne]
  · intro s acc fi hlk heq hfi
    rw [addLocation, locSkipped]
    simp [hce, Json.pyGetD, hlk, heq, hfi]

/-- Witness for C8: country value `"spain"` against filter `"Spain"`. -/
theorem C8_witness :
    ("Spain" : String) ≠ "" ∧
    ([("country", (Json.str "spain"))].lookup "country" = some (.str "spain") ∧
     (locSkipped (some "Spain") (.obj [("country", .str "spain")]) = .ok false ↔
        pyLower "spain" = pyLower "Spain")) ∧
    pyLower "spain" = pyLower "Spain" :=
  ⟨fun h => by simp at h,
   ⟨rfl,
    (C8_country_filter_case_insensitive "Spain" (fun h => by simp at h)
        [("country", .str "spain")]).1 "spain" rfl⟩,
   rfl⟩

/-! ## C4: "N/A" substitution versus raising identification path -/

/-- Mapping over a list of images, when the body succeeds uniformly with a
computable result. -/
theorem mapME_map_eq {α β γ : Type} (f : β → Except String γ) (g : α → β)
    (e : α → γ) (hfg : ∀ a, f (g a) = .ok (e a)) :
    ∀ xs : List α, mapME f (xs.map g) = .ok (xs.map e)
  | [] => by simp [mapME]
  | x :: xs => by
    simp [mapME, hfg x, mapME_map_eq f g e hfg xs]

/-- Unfolding the 200 branch of `count_trials` on a synthetic response. -/
theorem count_trials_studies (c s : String) (xs : List Json) :
    count_trials c s (mkStudiesResp xs)
      = (do
          let titles ← mapME (fun st => do
              let ps ← st.pyGet "protocolSection"
              let im ← ps.pyGet "identificationModule"
              im.pyGet "briefTitle") (xs.take 3)
          Except.ok (.obj [("count", .num xs.length), ("condition", .str c),
                           ("status", .str s), ("sample_titles", .arr titles)])) :=
  rfl

/-- Unfolding the 200 branch of `get_eligibility_criteria` on a synthetic
response. -/
theorem get_eligibility_criteria_studies (c : String) (m : Int) (xs : List Json) :
    get_eligibility_criteria c m (mkStudiesResp xs)
      = (do
          let criteria_list ← mapME eligibilityEntry xs
          Except.ok (.obj [("condition", .str c),
                           ("number_of_trials", .num criteria_list.length),
                           ("criteria", .arr criteria_list)])) :=
  rfl

/-- Unfolding the 200 branch of `get_trial_phases` on a synthetic response. -/
theorem get_trial_phases_studies (c p : String) (xs : List Json) :
    get_trial_phases c p (mkStudiesResp xs)
      = (do
          let trials ← mapME phasesEntry xs
          Except.ok (.obj [("condition", .str c), ("phase", .str p),
                           ("count", .num trials.length),
                           ("trials", .arr trials)])) :=
  rfl

/-- Evaluating `eligibilityEntry` on an identification-only study: every defaulting
field is `"N/A"`. -/
theorem eligibilityEntry_idOnly (n t : String) :
    eligibilityEntry (idOnlyStudy n t)
      = .ok (.obj [("nct_id", .str n), ("title", .str t),
          ("criteria", .str "N/A"), ("sex", .str "N/A"),
          ("age_range", .str "N/A - N/A")]) := rfl

/-- Evaluating `phasesEntry` on an identification-only study: every defaulting field is
`["N/A"]` / `"N/A"`. -/
theorem phasesEntry_idOnly (n t : String) :
    phasesEntry (idOnlyStudy n t)
      = .ok (.obj [("nct_id", .str n), ("title", .str t),
          ("phase", .arr [.str "N/A"]), ("start_date", .str "N/A"),
          ("completion_date", .str "N/A")]) := rfl

/-- The title projection of `count_trials` on a title-only study. -/
theorem count_title_titleOnly (t : String) :
    (do
      let ps ← (titleOnlyStudy t).pyGet "protocolSection"
      let im ← ps.pyGet "identificationModule"
      im.pyGet "briefTitle") = Except.ok (Json.str t) := rfl

/-- Counterexample to C4 as stated: on a 200 response holding one study
record that lacks `protocolSection`, every one of the four operations raises
`KeyError` instead of substituting any sentinel. -/
theorem C4_counterexample :
    (mkStudiesResp [.obj []]).status_code = 200 ∧
    count_trials "diabetes" "RECRUITING" (mkStudiesResp [.obj []])
      = .error "KeyError: protocolSection" ∧
    get_eligibility_criteria "diabetes" 5 (mkStudiesResp [.obj []])
      = .error "KeyError: protocolSection" ∧
    get_trial_locations "diabetes" none (mkStudiesResp [.obj []])
      = .error "KeyError: protocolSection" ∧
    get_trial_phases "asthma" "PHASE3" (mkStudiesResp [.obj []])
      = .error "KeyError: protocolSection" :=
  ⟨rfl, rfl, rfl, rfl, rfl⟩

/-- C4 (amended): fields read through defaulting accessors are substituted
with `"N/A"` when missing — eligibility criteria, sex and ages; phases list
and the two dates; facility, city and country — and the operations succeed on
records that carry the identification path but none of the optional modules;
however a record missing `protocolSection` makes every operation raise. -/
theorem C4_default_fields_vs_raising_path (c s p : String) (m : Int) :
    (∀ ids : List (String × String),
        get_eligibility_criteria c m
            (mkStudiesResp (ids.map fun nt => idOnlyStudy nt.1 nt.2))
          = .ok (.obj [("condition", .str c),
                       ("number_of_trials", .num ids.length),
                       ("criteria", .arr (ids.map fun nt =>
                         .obj [("nct_id", .str nt.1), ("title", .str nt.2),
                               ("criteria", .str "N/A"), ("sex", .str "N/A"),
                               ("age_range", .str "N/A - N/A")]))])) ∧
    (∀ ids : List (String × String),
        get_trial_phases c p
            (mkStudiesResp (ids.map fun nt => idOnlyStudy nt.1 nt.2))
          = .ok (.obj [("condition", .str c), ("phase", .str p),
                       ("count", .num ids.length),
                       ("trials", .arr (ids.map fun nt =>
                         .obj [("nct_id", .str nt.1), ("title", .str nt.2),
                               ("phase", .arr [.str "N/A"]),
                               ("start_date", .str "N/A"),
                               ("completion_date", .str "N/A")]))])) ∧
    (∀ titles : List String,
        count_trials c s (mkStudiesResp (titles.map titleOnlyStudy))
          = .ok (.obj [("count", .num titles.length), ("condition", .str c),
                       ("status", .str s),
                       ("sample_titles", .arr ((titles.take 3).map Json.str))])) ∧
    (∀ city : String,
        get_trial_locations c none (mkStudiesResp [locOnlyCityStudy city])
          = .ok (.obj [("condition", .str c), ("country", .str "all"),
                       ("number_of_facilities", .num 1),
                       ("facilities", .arr [.obj [("facility", .str "N/A"),
                         ("city", .str city), ("country", .str "N/A")]])])) ∧
    (∀ rest : List Json,
        get_trial_phases c p (mkStudiesResp (Json.obj [] :: rest))
          = .error "KeyError: protocolSection") := by
  refine ⟨?_, ?_, ?_, fun city => rfl, fun rest => rfl⟩
  · intro ids
    rw [get_eligibility_criteria_studies,
      mapME_map_eq eligibilityEntry (fun nt => idOnlyStudy nt.1 nt.2)
        (fun nt => .obj [("nct_id", .str nt.1), ("title", .str nt.2),
          ("criteria", .str "N/A"), ("sex", .str "N/A"),
          ("age_range", .str "N/A - N/A")])
        (fun nt => eligibilityEntry_idOnly nt.1 nt.2) ids]
    simp
  · intro ids
    rw [get_trial_phases_studies,
      mapME_map_eq phasesEntry (fun nt => idOnlyStudy nt.1 nt.2)
        (fun nt => .obj [("nct_id", .str nt.1), ("title", .str nt.2),
          ("phase", .arr [.str "N/A"]), ("start_date", .str "N/A"),
          ("completion_date", .str "N/A")])
        (fun nt => phasesEntry_idOnly nt.1 nt.2) ids]
    simp
  · intro titles
    rw [count_trials_studies, ← List.map_take,
      mapME_map_eq _ titleOnlyStudy Json.str count_title_titleOnly
        (titles.take 3)]
    simp

/-- Witness for C4's amended theorem at concrete inputs. -/
theorem C4_witness :
    get_trial_phases "asthma" "PHASE3"
        (mkStudiesResp [idOnlyStudy "NCT1" "T1", idOnlyStudy "NCT2" "T2"])
      = .ok (.obj [("condition", .str "asthma"), ("phase", .str "PHASE3"),
                   ("count", .num 2),
                   ("trials", .arr [
                     .obj [("nct_id", .str "NCT1"), ("title", .str "T1"),
                           ("phase", .arr [.str "N/A"]),
                           ("start_date", .str "N/A"),
                           ("completion_date", .str "N/A")],
                     .obj [("nct_id", .str "NCT2"), ("title", .str "T2"),
                           ("phase", .arr [.str "N/A"]),
                           ("start_date", .str "N/A"),
                           ("completion_date", .str "N/A")]])]) :=
  (C4_default_fields_vs_raising_path "asthma" "RECRUITING" "PHASE3" 5).2.1
    [("NCT1", "T1"), ("NCT2", "T2")]

/-! ## C6: the `max_trials` bound -/

/-- Counterexample to C6 as stated: with `max_trials = 1` and a 200 response
carrying two study records, the summary reports `number_of_trials = 2` and a
two-element criteria list, exceeding the bound. -/
theorem C6_counterexample :
    (mkStudiesResp [idOnlyStudy "N1" "T1", idOnlyStudy "N2" "T2"]).status_code
      = 200 ∧
    get_eligibility_criteria "diabetes" 1
        (mkStudiesResp [idOnlyStudy "N1" "T1", idOnlyStudy "N2" "T2"])
      = .ok (.obj [("condition", .str "diabetes"),
                   ("number_of_trials", .num 2),
                   ("criteria", .arr [
                     .obj [("nct_id", .str "N1"), ("title", .str "T1"),
                           ("criteria", .str "N/A"), ("sex", .str "N/A"),
                           ("age_range", .str "N/A - N/A")],
                     .obj [("nct_id", .str "N2"), ("title", .str "T2"),
                           ("criteria", .str "N/A"), ("sex", .str "N/A"),
                           ("age_range", .str "N/A - N/A")]])]) ∧
    ¬((2 : Int) ≤ 1) :=
  ⟨rfl, rfl, by decide⟩

/-- C6 (amended): `max_trials` only shapes the request — it is sent upstream
as the `pageSize` query parameter — while the 200 branch processes every
study record the response carries: `number_of_trials` and the criteria list
length equal the number of study records, whatever it is. -/
theorem C6_pageSize_request_only (c : String) (m : Int) (resp : HttpResponse)
    (xs : List Json) (out : Json) (hs : resp.status_code = 200)
    (hstud : resp.body.pyGetD "studies" (.arr []) = .ok (.arr xs))
    (hok : get_eligibility_criteria c m resp = .ok out) :
    (get_eligibility_criteria_params c m).lookup "pageSize" = some (.num m) ∧
    out.pyGet "number_of_trials" = .ok (.num xs.length) ∧
    ∃ cl, out.pyGet "criteria" = .ok (.arr cl) ∧ cl.length = xs.length := by
  unfold get_eligibility_criteria at hok
  rw [if_pos hs, hstud] at hok
  simp only [exceptBind_ok] at hok
  have hok' : (do
      let criteria_list ← mapME eligibilityEntry xs
      Except.ok (Json.obj [("condition", .str c),
        ("number_of_trials", .num criteria_list.length),
        ("criteria", .arr criteria_list)])) = Except.ok out := hok
  cases hm : mapME eligibilityEntry xs with
  | error e => rw [hm] at hok'; simp at hok'
  | ok cl =>
    rw [hm] at hok'
    simp only [exceptBind_ok, Except.ok.injEq] at hok'
    subst hok'
    refine ⟨rfl, ?_, cl, rfl, mapME_ok_length _ hm⟩
    rw [mapME_ok_length _ hm]
    rfl

/-- Witness for C6's amended theorem on a one-study response with
`max_trials = 5`. -/
theorem C6_witness :
    (mkStudiesResp [idOnlyStudy "N1" "T1"]).status_code = 200 ∧
    ((get_eligibility_criteria_params "diabetes" 5).lookup "pageSize"
        = some (.num 5) ∧
     (Json.obj [("condition", .str "diabetes"), ("number_of_trials", .num 1),
        ("criteria", .arr [.obj [("nct_id", .str "N1"), ("title", .str "T1"),
          ("criteria", .str "N/A"), ("sex", .str "N/A"),
          ("age_range", .str "N/A - N/A")]])]).pyGet "number_of_trials"
        = .ok (.num 1) ∧
     ∃ cl, (Json.obj [("condition", .str "diabetes"),
        ("number_of_trials", .num 1),
        ("criteria", .arr [.obj [("nct_id", .str "N1"), ("title", .str "T1"),
          ("criteria", .str "N/A"), ("sex", .str "N/A"),
          ("age_range", .str "N/A - N/A")]])]).pyGet "criteria"
        = .ok (.arr cl) ∧ cl.length = 1) :=
  ⟨rfl,
   C6_pageSize_request_only "diabetes" 5 (mkStudiesResp [idOnlyStudy "N1" "T1"])
     [idOnlyStudy "N1" "T1"] _ rfl rfl rfl⟩
